import Mathlib

/-!
Shallow embedding of the QuantEdge trading engine
(src/trading_engine.py, class TradingEngine) and theorems checking the
natural-language specification against it.

Modelling conventions:
* Python floats are modelled as rationals.
* A pandas timestamp is modelled as a day index plus a time-of-day
  fraction; calling date() on it projects to the day index.  Python
  compares a timestamp with a bare date as unequal unless the timestamp
  is exactly midnight of that date (and newer pandas treats them as
  always unequal); we use the midnight-equality semantics, which is the
  one more favourable to the code.
* Dictionaries with a fixed shape (position, trade record, signal)
  become structures; the optional trailing_stop key becomes an Option
  field.
* Fallible paths return Option; the engine-state mutation performed by
  check_signal, should_exit_position, open_position and close_position
  is made explicit by returning the updated Engine.
-/

/-- Day index plus time-of-day fraction of a pandas timestamp. -/
structure Timestamp where
  day : Int
  tod : ℚ
deriving DecidableEq

/-- Direction of a position or signal (the type field of the Python dicts). -/
inductive PosType where
  | long
  | short
deriving DecidableEq

/-- Pattern tags produced by check_signal (the pattern field). -/
inductive Pattern where
  | trend_pullback
  | bb_bounce
  | bb_rejection
  | breakout
  | breakdown
  | momentum
  | unknown
deriving DecidableEq

/-- Close reasons used by should_exit_position and the driver loops. -/
inductive Reason where
  | LIQUIDATION
  | TRAILING_STOP
  | STOP_LOSS
  | TAKE_PROFIT
  | END_OF_DATA
  | MANUAL_STOP
deriving DecidableEq

/-- One indicator-augmented dataframe row as read by check_signal.
The indicator columns produced by calculate_indicators are carried as
independent fields, since check_signal is a function of the augmented
dataframe.  day and tod model the row label (current.name). -/
structure Row where
  day : Int
  tod : ℚ
  open_price : ℚ
  high : ℚ
  low : ℚ
  close : ℚ
  volume : ℚ
  ema_short : ℚ
  ema_mid : ℚ
  ema_long : ℚ
  rsi : ℚ
  macd : ℚ
  macd_signal : ℚ
  macd_hist : ℚ
  bb_pband : ℚ
  atr : ℚ
  price_change : ℚ
  volume_ratio : ℚ
  body : ℚ
  upper_wick : ℚ
  lower_wick : ℚ
  range : ℚ
  ema_alignment_bull : Bool
  ema_alignment_bear : Bool
deriving DecidableEq

/-- The open-position dictionary built by open_position. -/
structure Position where
  type : PosType
  entry_price : ℚ
  size : ℚ
  stop_loss : ℚ
  take_profit : ℚ
  liquidation_price : ℚ
  entry_time : Timestamp
  entry_capital : ℚ
  confidence : ℚ
  pattern : Pattern
  trailing_stop : Option ℚ
deriving DecidableEq

/-- The immutable trade record appended by close_position. -/
structure Trade where
  entry_time : Timestamp
  exit_time : Timestamp
  type : PosType
  entry_price : ℚ
  exit_price : ℚ
  size : ℚ
  pnl : ℚ
  pnl_percent : ℚ
  reason : Reason
  pattern : Pattern
deriving DecidableEq

/-- A signal dictionary returned by check_signal. -/
structure Signal where
  type : PosType
  price : ℚ
  atr : ℚ
  pattern : Pattern
  confidence : ℚ
deriving DecidableEq

/-- Engine state: the configuration fixed in TradingEngine.__init__ plus
the mutable trading state.  The symbol/timeframe strings and the
indicator window settings are omitted: they are only read by
calculate_indicators, which is not part of the embedded core. -/
structure Engine where
  initial_capital : ℚ
  capital : ℚ
  leverage : ℚ
  risk_per_trade : ℚ
  stop_atr_multiplier : ℚ
  target_atr_multiplier : ℚ
  trailing_activation : ℚ
  max_trades_per_day : ℕ
  daily_loss_limit : ℚ
  position : Option Position
  trades : List Trade
  daily_pnl : ℚ
  daily_trade_count : ℕ
  last_trade_date : Option Timestamp
deriving DecidableEq

/-- TradingEngine.__init__ with the fixed risk settings
(stop multiplier 2.0, target 3.5, trailing activation 1.5,
max 8 trades per day, daily loss limit 0.08). -/
def initEngine (initial_capital leverage risk_per_trade : ℚ) : Engine :=
  { initial_capital := initial_capital
    capital := initial_capital
    leverage := leverage
    risk_per_trade := risk_per_trade
    stop_atr_multiplier := 2
    target_atr_multiplier := 3.5
    trailing_activation := 1.5
    max_trades_per_day := 8
    daily_loss_limit := 0.08
    position := none
    trades := []
    daily_pnl := 0
    daily_trade_count := 0
    last_trade_date := none }

/-- calculate_position_size: risk_amount / stop_distance times leverage,
capped at 50 percent of capital times leverage; zero stop distance
returns size 0 before any division. -/
def calculate_position_size (e : Engine) (entry_price stop_loss_price : ℚ)
    (confidence : ℚ) : ℚ :=
  let risk_amount := e.capital * e.risk_per_trade * confidence
  let stop_distance := |entry_price - stop_loss_price|
  if stop_distance = 0 then 0
  else
    let position_size := risk_amount / stop_distance * e.leverage
    let max_position := e.capital * e.leverage * 0.5
    min position_size max_position

/-- calculate_stops: ATR-based stop-loss and take-profit pair. -/
def calculate_stops (e : Engine) (entry_price : ℚ) (signal_type : PosType)
    (atr : ℚ) : ℚ × ℚ :=
  if signal_type = .long then
    (entry_price - atr * e.stop_atr_multiplier, entry_price + atr * e.target_atr_multiplier)
  else
    (entry_price + atr * e.stop_atr_multiplier, entry_price - atr * e.target_atr_multiplier)

/-- calculate_liquidation_price. -/
def calculate_liquidation_price (e : Engine) (entry_price : ℚ)
    (position_type : PosType) : ℚ :=
  if position_type = .long then
    entry_price * (1 - 0.9 / e.leverage)
  else
    entry_price * (1 + 0.9 / e.leverage)

/-- Default row used to make iloc indexing total; theorems about
check_signal carry the in-bounds hypotheses of the Python callers. -/
def dRow : Row :=
  { day := 0, tod := 0, open_price := 0, high := 0, low := 0, close := 0, volume := 0
    ema_short := 0, ema_mid := 0, ema_long := 0, rsi := 0, macd := 0, macd_signal := 0
    macd_hist := 0, bb_pband := 0, atr := 0, price_change := 0, volume_ratio := 0
    body := 0, upper_wick := 0, lower_wick := 0, range := 0
    ema_alignment_bull := false, ema_alignment_bear := false }

/-- df.iloc at a nonnegative index. -/
def rowAt (df : List Row) (j : ℕ) : Row :=
  df.getD j dRow

/-- A column slice df.iloc a through b excluded, mapped through f. -/
def sliceCol (f : Row → ℚ) (df : List Row) (a b : ℕ) : List ℚ :=
  ((df.drop a).take (b - a)).map f

/-- Series max of a nonempty slice (the empty case is never reached under
the lookback guard of check_signal). -/
def seriesMax (l : List ℚ) : ℚ :=
  l.foldl max (l.headD 0)

/-- Series min of a nonempty slice. -/
def seriesMin (l : List ℚ) : ℚ :=
  l.foldl min (l.headD 0)

/-- Pattern 1 long: uptrend context plus completed pullback or RSI
recovery, plus MACD turning or bullish momentum. -/
abbrev p1_long (current prev prev2 : Row) : Prop :=
  (current.ema_alignment_bull = true ∨ current.ema_short > current.ema_long) ∧
  ((prev2.close < prev2.ema_short ∧ prev.close < prev.ema_short ∧
      current.close > current.ema_short) ∨
    (prev.rsi < 45 ∧ current.rsi > 45)) ∧
  (current.macd_hist > prev.macd_hist ∨
    (current.price_change > 0 ∧ current.body > current.range * 0.5))

/-- Pattern 1 short: downtrend context plus completed rally or RSI
rejection, plus MACD weakening or bearish momentum. -/
abbrev p1_short (current prev prev2 : Row) : Prop :=
  (current.ema_alignment_bear = true ∨ current.ema_short < current.ema_long) ∧
  ((prev2.close > prev2.ema_short ∧ prev.close > prev.ema_short ∧
      current.close < current.ema_short) ∨
    (prev.rsi > 55 ∧ current.rsi < 55)) ∧
  (current.macd_hist < prev.macd_hist ∨
    (current.price_change < 0 ∧ current.body > current.range * 0.5))

/-- Pattern 2 long: ranging market, lower Bollinger extreme, oversold
RSI, hammer candle or positive change. -/
abbrev p2_long (current : Row) : Prop :=
  (¬ current.ema_alignment_bull = true ∧ ¬ current.ema_alignment_bear = true) ∧
  current.bb_pband < 0.15 ∧ current.rsi < 35 ∧
  (current.lower_wick > current.body * 1.5 ∨ current.price_change > 0)

/-- Pattern 2 short: ranging market, upper Bollinger extreme, overbought
RSI, shooting-star candle or negative change. -/
abbrev p2_short (current : Row) : Prop :=
  (¬ current.ema_alignment_bull = true ∧ ¬ current.ema_alignment_bear = true) ∧
  current.bb_pband > 0.85 ∧ current.rsi > 65 ∧
  (current.upper_wick > current.body * 1.5 ∨ current.price_change < 0)

/-- Consolidation precondition of pattern 3: the high-low span of rows
i-5 through i-1 is below three times the current ATR. -/
abbrev consolidating (df : List Row) (j : ℕ) (current : Row) : Prop :=
  seriesMax (sliceCol Row.high df (j - 5) j) -
      seriesMin (sliceCol Row.low df (j - 5) j) < current.atr * 3

/-- Breakout trigger of pattern 3 long: close above the high of rows i-5
through i-2 (the slice iloc i-5 to i-1 of the source). -/
abbrev breaking_higher (df : List Row) (j : ℕ) (current : Row) : Prop :=
  current.close > seriesMax (sliceCol Row.high df (j - 5) (j - 1))

/-- Breakdown trigger of pattern 3 short. -/
abbrev breaking_lower (df : List Row) (j : ℕ) (current : Row) : Prop :=
  current.close < seriesMin (sliceCol Row.low df (j - 5) (j - 1))

/-- Pattern 3 long: consolidation, upside break, volume surge, MACD
above its signal line. -/
abbrev p3_long (df : List Row) (j : ℕ) (current : Row) : Prop :=
  consolidating df j current ∧ breaking_higher df j current ∧
  current.volume_ratio > 1.5 ∧ current.macd > current.macd_signal

/-- Pattern 3 short: consolidation, downside break, volume surge, MACD
below its signal line. -/
abbrev p3_short (df : List Row) (j : ℕ) (current : Row) : Prop :=
  consolidating df j current ∧ breaking_lower df j current ∧
  current.volume_ratio > 1.5 ∧ current.macd < current.macd_signal

/-- Pattern 4 long: strong green candle, healthy RSI, close above the
mid EMA, elevated volume. -/
abbrev p4_long (current : Row) : Prop :=
  (current.close > current.open_price ∧ current.body > current.range * 0.7 ∧
    current.price_change > 0.5) ∧
  (40 < current.rsi ∧ current.rsi < 70) ∧
  current.close > current.ema_mid ∧ current.volume_ratio > 1.2

/-- Pattern 4 short: strong red candle, weak RSI, close below the mid
EMA, elevated volume. -/
abbrev p4_short (current : Row) : Prop :=
  (current.close < current.open_price ∧ current.body > current.range * 0.7 ∧
    current.price_change < -0.5) ∧
  (30 < current.rsi ∧ current.rsi < 60) ∧
  current.close < current.ema_mid ∧ current.volume_ratio > 1.2

/-- The pattern cascade of check_signal, first match wins. -/
def signal_of_patterns (df : List Row) (j : ℕ) : Option Signal :=
  let current := rowAt df j
  let prev := rowAt df (j - 1)
  let prev2 := rowAt df (j - 2)
  if p1_long current prev prev2 then
    some { type := .long, price := current.close, atr := current.atr,
           pattern := .trend_pullback, confidence := 0.7 }
  else if p1_short current prev prev2 then
    some { type := .short, price := current.close, atr := current.atr,
           pattern := .trend_pullback, confidence := 0.7 }
  else if p2_long current then
    some { type := .long, price := current.close, atr := current.atr,
           pattern := .bb_bounce, confidence := 0.6 }
  else if p2_short current then
    some { type := .short, price := current.close, atr := current.atr,
           pattern := .bb_rejection, confidence := 0.6 }
  else if p3_long df j current then
    some { type := .long, price := current.close, atr := current.atr,
           pattern := .breakout, confidence := 0.8 }
  else if p3_short df j current then
    some { type := .short, price := current.close, atr := current.atr,
           pattern := .breakdown, confidence := 0.8 }
  else if p4_long current then
    some { type := .long, price := current.close, atr := current.atr,
           pattern := .momentum, confidence := 0.5 }
  else if p4_short current then
    some { type := .short, price := current.close, atr := current.atr,
           pattern := .momentum, confidence := 0.5 }
  else none

/-- Daily-limit reset at the top of check_signal: a truthy
last_trade_date that compares unequal to the date of the current row
zeroes the daily counters.  The stored value is a full timestamp, so it
equals the bare date of the row only when it is midnight of that day. -/
def resetDaily (e : Engine) (current : Row) : Engine :=
  match e.last_trade_date with
  | none => e
  | some ts =>
      if ts.tod = 0 ∧ ts.day = current.day then e
      else { e with daily_trade_count := 0, daily_pnl := 0 }

/-- check_signal: lookback guard, daily reset, daily-limit gates, then
the pattern cascade.  The updated engine is returned alongside the
optional signal. -/
def check_signal (e : Engine) (df : List Row) (i? : Option Int) :
    Engine × Option Signal :=
  let i := i?.getD (-1)
  if i < 5 then (e, none)
  else
    let j := i.toNat
    let current := rowAt df j
    let e1 := resetDaily e current
    if e1.daily_trade_count ≥ e1.max_trades_per_day then (e1, none)
    else if e1.daily_pnl < -e1.daily_loss_limit * e1.capital then (e1, none)
    else (e1, signal_of_patterns df j)

/-- Static stop-loss and take-profit checks at the tail of
should_exit_position; the engine argument already carries any
trailing-stop update made earlier in the call. -/
def regular_exits (e : Engine) (pos : Position) (current_price : ℚ) :
    Engine × Bool × Option Reason :=
  if pos.type = .long then
    if current_price ≤ pos.stop_loss then (e, true, some .STOP_LOSS)
    else if current_price ≥ pos.take_profit then (e, true, some .TAKE_PROFIT)
    else (e, false, none)
  else
    if current_price ≥ pos.stop_loss then (e, true, some .STOP_LOSS)
    else if current_price ≤ pos.take_profit then (e, true, some .TAKE_PROFIT)
    else (e, false, none)

/-- The in-place trailing_stop mutation of the long branch: the key is
created when absent and overwritten only by a strictly higher
candidate. -/
def updatedTrailingLong (pos : Position) (trailing : ℚ) : Position :=
  match pos.trailing_stop with
  | none => { pos with trailing_stop := some trailing }
  | some t =>
      if trailing > t then { pos with trailing_stop := some trailing } else pos

/-- The in-place trailing_stop mutation of the short branch: created
when absent, overwritten only by a strictly lower candidate. -/
def updatedTrailingShort (pos : Position) (trailing : ℚ) : Position :=
  match pos.trailing_stop with
  | none => { pos with trailing_stop := some trailing }
  | some t =>
      if trailing < t then { pos with trailing_stop := some trailing } else pos

/-- should_exit_position: liquidation first, then the trailing-stop
block (entered only for a truthy ATR argument, i.e. present and
nonzero, and unrealized P&L percent above the activation threshold),
then the static stops.  The trailing value stored in the position is
overwritten only by a strictly tighter candidate. -/
def should_exit_position (e : Engine) (current_price : ℚ)
    (current_atr : Option ℚ) : Engine × Bool × Option Reason :=
  match e.position with
  | none => (e, false, none)
  | some pos =>
      let pnl_pct :=
        if pos.type = .long then
          (current_price - pos.entry_price) / pos.entry_price * 100
        else
          (pos.entry_price - current_price) / pos.entry_price * 100
      if pos.type = .long ∧ current_price ≤ pos.liquidation_price then
        (e, true, some .LIQUIDATION)
      else if pos.type = .short ∧ current_price ≥ pos.liquidation_price then
        (e, true, some .LIQUIDATION)
      else
        match current_atr with
        | none => regular_exits e pos current_price
        | some a =>
            if a ≠ 0 ∧ pnl_pct > e.trailing_activation then
              if pos.type = .long then
                let pos1 :=
                  updatedTrailingLong pos
                    (current_price - a * e.stop_atr_multiplier * 0.75)
                let e1 := { e with position := some pos1 }
                if current_price ≤ (pos1.trailing_stop.getD 0) then
                  (e1, true, some .TRAILING_STOP)
                else regular_exits e1 pos1 current_price
              else
                let pos1 :=
                  updatedTrailingShort pos
                    (current_price + a * e.stop_atr_multiplier * 0.75)
                let e1 := { e with position := some pos1 }
                if current_price ≥ (pos1.trailing_stop.getD 0) then
                  (e1, true, some .TRAILING_STOP)
                else regular_exits e1 pos1 current_price
            else regular_exits e pos current_price

/-- The position dictionary built inside open_position, factored out:
its size field is the size computed from the ATR-based stop. -/
def openedPosition (e : Engine) (signal : Signal) (timestamp : Timestamp) :
    Position :=
  let stops := calculate_stops e signal.price signal.type signal.atr
  { type := signal.type
    entry_price := signal.price
    size := calculate_position_size e signal.price stops.1 signal.confidence
    stop_loss := stops.1
    take_profit := stops.2
    liquidation_price := calculate_liquidation_price e signal.price signal.type
    entry_time := timestamp
    entry_capital := e.capital
    confidence := signal.confidence
    pattern := signal.pattern
    trailing_stop := none }

/-- open_position: computes stops and size, refuses on nonpositive size,
otherwise stores the new position dictionary (without checking for an
existing one), increments the daily trade count and records the full
timestamp as last_trade_date (every modelled timestamp has a date
attribute, so the hasattr branch always takes the timestamp). -/
def open_position (e : Engine) (signal : Signal) (timestamp : Timestamp) :
    Engine × Bool :=
  let stops := calculate_stops e signal.price signal.type signal.atr
  let position_size := calculate_position_size e signal.price stops.1 signal.confidence
  if position_size ≤ 0 then (e, false)
  else
    ({ e with
        position := some (openedPosition e signal timestamp)
        daily_trade_count := e.daily_trade_count + 1
        last_trade_date := some timestamp },
      true)

/-- close_position: price-based P&L overridden on liquidation, capital
and daily P&L updated, trade record appended, position cleared; a no-op
returning no record when no position is open. -/
def close_position (e : Engine) (exit_price : ℚ) (timestamp : Timestamp)
    (reason : Reason) : Engine × Option Trade :=
  match e.position with
  | none => (e, none)
  | some pos =>
      let pnl0 :=
        if pos.type = .long then (exit_price - pos.entry_price) * pos.size
        else (pos.entry_price - exit_price) * pos.size
      let pnl := if reason = .LIQUIDATION then -pos.entry_capital * 0.9 else pnl0
      let trade_record : Trade :=
        { entry_time := pos.entry_time
          exit_time := timestamp
          type := pos.type
          entry_price := pos.entry_price
          exit_price := exit_price
          size := pos.size
          pnl := pnl
          pnl_percent := pnl / pos.entry_capital * 100
          reason := reason
          pattern := pos.pattern }
      ({ e with
          capital := e.capital + pnl
          daily_pnl := e.daily_pnl + pnl
          trades := e.trades ++ [trade_record]
          position := none },
        some trade_record)

/-- Gross profit of a trade list: sum of the strictly positive P&L
entries. -/
def total_profit (ts : List Trade) : ℚ :=
  ((ts.filter fun t => decide (0 < t.pnl)).map Trade.pnl).sum

/-- Gross loss of a trade list: absolute value of the sum of the
nonpositive P&L entries (zero-P&L trades count as losses). -/
def total_loss (ts : List Trade) : ℚ :=
  |((ts.filter fun t => decide (t.pnl ≤ 0)).map Trade.pnl).sum|

/-- Maximum run of consecutive losing trades (P&L nonpositive), the
groupby-cumsum computation of analyze_performance. -/
def maxLossStreak (ts : List Trade) : ℕ :=
  (ts.foldl
    (fun (p : ℕ × ℕ) t =>
      let cur := if t.pnl ≤ 0 then p.1 + 1 else 0
      (cur, max p.2 cur))
    (0, 0)).2

/-- The summary dictionary of analyze_performance.  The profit factor is
an Option, none standing for the float infinity returned when the gross
loss is zero.  The Sharpe-style ratio is left out of the embedding: it
multiplies by an irrational square root and no claim refers to it. -/
structure Perf where
  total_trades : ℕ
  winning_trades : ℕ
  losing_trades : ℕ
  win_rate : ℚ
  profit_factor : Option ℚ
  net_profit : ℚ
  avg_win : ℚ
  avg_loss : ℚ
  expectancy : ℚ
  max_consecutive_losses : ℕ
  roi : ℚ
deriving DecidableEq

/-- The statistics record computed by analyze_performance on a
nonempty trade log, with the engine capital fields passed in for the
ROI entry. -/
def perfOf (ts : List Trade) (capital initial_capital : ℚ) : Perf :=
  let total_trades := ts.length
  let winners := ts.filter fun t => decide (0 < t.pnl)
  let losers := ts.filter fun t => decide (t.pnl ≤ 0)
  let winning_trades := winners.length
  let losing_trades := total_trades - winning_trades
  let win_rate := (winning_trades : ℚ) / (total_trades : ℚ) * 100
  let tp := total_profit ts
  let tl := total_loss ts
  let net_profit := (ts.map Trade.pnl).sum
  let profit_factor : Option ℚ := if 0 < tl then some (tp / tl) else none
  let avg_win :=
    if 0 < winning_trades then (winners.map Trade.pnl).sum / (winners.length : ℚ) else 0
  let avg_loss :=
    if 0 < losing_trades then |(losers.map Trade.pnl).sum / (losers.length : ℚ)| else 0
  let expectancy := win_rate / 100 * avg_win - (1 - win_rate / 100) * avg_loss
  { total_trades := total_trades
    winning_trades := winning_trades
    losing_trades := losing_trades
    win_rate := win_rate
    profit_factor := profit_factor
    net_profit := net_profit
    avg_win := avg_win
    avg_loss := avg_loss
    expectancy := expectancy
    max_consecutive_losses := maxLossStreak ts
    roi := (capital - initial_capital) / initial_capital * 100 }

/-- analyze_performance: none on an empty trade log, otherwise the
derived statistics of the accumulated trades. -/
def analyze_performance (e : Engine) : Option Perf :=
  if e.trades = [] then none
  else some (perfOf e.trades e.capital e.initial_capital)

/-- Engine with the default configuration of the backtester and the
paper traders: capital 10000, leverage 3, risk 2 percent. -/
def e0 : Engine := initEngine 10000 3 (0.02)

/-- Engine state after a trade was opened mid-day on day 0: the stored
last_trade_date is the full open timestamp, not a bare date. -/
def c1Engine : Engine :=
  { e0 with daily_trade_count := 3, daily_pnl := -50,
            last_trade_date := some { day := 0, tod := 1/2 } }

/-- A later row of the same day 0. -/
def c1Row : Row := { dRow with day := 0, tod := 3/4 }

/-- A dataframe of seven rows, all on day 0. -/
def c1Df : List Row := [c1Row, c1Row, c1Row, c1Row, c1Row, c1Row, c1Row]

/-- A long position fixture used by concrete instantiations. -/
def wPos : Position :=
  { type := .long, entry_price := 100, size := 150, stop_loss := 96
    take_profit := 107, liquidation_price := 70, entry_time := { day := 0, tod := 0 }
    entry_capital := 10000, confidence := 1, pattern := .breakout, trailing_stop := none }

/-- Engine holding the open position fixture. -/
def wEngine : Engine := { e0 with position := some wPos }

/-- An already-open position used to exercise open_position while Open. -/
def c2Pos : Position :=
  { type := .long, entry_price := 100, size := 150, stop_loss := 96
    take_profit := 107, liquidation_price := 70, entry_time := { day := 0, tod := 0 }
    entry_capital := 10000, confidence := 1, pattern := .breakout, trailing_stop := none }

/-- Engine already holding c2Pos with two trades taken today. -/
def c2Engine : Engine := { e0 with position := some c2Pos, daily_trade_count := 2 }

/-- A fresh signal at a different price fed to open_position while a
position is already open. -/
def c2Signal : Signal :=
  { type := .long, price := 200, atr := 2, pattern := .momentum, confidence := 0.8 }

/-- A signal whose ATR is zero, so that the computed stop equals the
entry price. -/
def sigZ : Signal :=
  { type := .long, price := 100, atr := 0, pattern := .unknown, confidence := 1 }

/-- Long position with an armed trailing stop at 101. -/
def c6Pos : Position :=
  { type := .long, entry_price := 100, size := 150, stop_loss := 96
    take_profit := 107, liquidation_price := 70, entry_time := { day := 0, tod := 0 }
    entry_capital := 10000, confidence := 1, pattern := .breakout
    trailing_stop := some 101 }

/-- Engine holding the armed position. -/
def c6Engine : Engine := { e0 with position := some c6Pos }

/-- A winning trade of magnitude 100. -/
def tWin : Trade :=
  { entry_time := { day := 0, tod := 0 }, exit_time := { day := 0, tod := 1 }
    type := .long, entry_price := 100, exit_price := 110, size := 10, pnl := 100
    pnl_percent := 1, reason := .TAKE_PROFIT, pattern := .momentum }

/-- A losing trade of the same magnitude 100. -/
def tLoss : Trade :=
  { entry_time := { day := 0, tod := 2 }, exit_time := { day := 0, tod := 3 }
    type := .long, entry_price := 100, exit_price := 90, size := 10, pnl := -100
    pnl_percent := -1, reason := .STOP_LOSS, pattern := .momentum }

/-- Engine whose log holds exactly one winning and one losing trade of
equal magnitude. -/
def c10Engine : Engine := { e0 with trades := [tWin, tLoss] }

/-- History row for the breakout scenario: highs 101, lows 99. -/
def bRow : Row :=
  { dRow with
    high := 101
    low := 99
    close := 100
    atr := 1
    bb_pband := 1/2
    rsi := 50
    volume_ratio := 2
    macd := 1 }

/-- Current row breaking above the 101 highs on strong volume with the
convergence line above its signal line. -/
def bCur : Row := { bRow with close := 102, high := 103, low := 101 }

/-- Six-row dataframe whose index 5 satisfies exactly the breakout-long
conditions and none of the earlier patterns. -/
def df9 : List Row := [bRow, bRow, bRow, bRow, bRow, bCur]

/-- Helper: the static stop/target checks never change the engine. -/
theorem regular_exits_engine (e : Engine) (pos : Position) (cp : ℚ) :
    (regular_exits e pos cp).1 = e := by
  unfold regular_exits
  split_ifs <;> rfl

/-- Helper: regular_exits returns the unchanged engine with some flag
and reason. -/
theorem regular_exits_shape (e : Engine) (pos : Position) (cp : ℚ) :
    ∃ b r, regular_exits e pos cp = (e, b, r) := by
  unfold regular_exits
  split_ifs <;> exact ⟨_, _, rfl⟩

/-- Helper: rewriting the trailing_stop field with its current value is
the identity. -/
theorem pos_trailing_self (pos : Position) (t : ℚ) (h : pos.trailing_stop = some t) :
    ({ pos with trailing_stop := some t } : Position) = pos := by
  cases pos
  simp_all

/-- Helper: an armed long trailing stop is never lowered by an update. -/
theorem updatedTrailingLong_mono (pos : Position) (tr t : ℚ)
    (h : pos.trailing_stop = some t) :
    ∃ u, (updatedTrailingLong pos tr).trailing_stop = some u ∧ t ≤ u := by
  simp only [updatedTrailingLong, h]
  by_cases hc : tr > t
  · rw [if_pos hc]
    exact ⟨tr, rfl, le_of_lt hc⟩
  · rw [if_neg hc]
    exact ⟨t, h, le_refl t⟩

/-- Helper: an armed short trailing stop is never raised by an update. -/
theorem updatedTrailingShort_mono (pos : Position) (tr t : ℚ)
    (h : pos.trailing_stop = some t) :
    ∃ u, (updatedTrailingShort pos tr).trailing_stop = some u ∧ u ≤ t := by
  simp only [updatedTrailingShort, h]
  by_cases hc : tr < t
  · rw [if_pos hc]
    exact ⟨tr, rfl, le_of_lt hc⟩
  · rw [if_neg hc]
    exact ⟨t, h, le_refl t⟩

/-- Helper: the long update always leaves a stored value at least the
candidate. -/
theorem updatedTrailingLong_set (pos : Position) (tr : ℚ) :
    ∃ v, updatedTrailingLong pos tr = { pos with trailing_stop := some v } ∧ tr ≤ v := by
  cases h : pos.trailing_stop with
  | none =>
    simp only [updatedTrailingLong, h]
    exact ⟨tr, rfl, le_refl tr⟩
  | some t =>
    simp only [updatedTrailingLong, h]
    by_cases hc : tr > t
    · rw [if_pos hc]
      exact ⟨tr, rfl, le_refl tr⟩
    · rw [if_neg hc]
      exact ⟨t, (pos_trailing_self pos t h).symm, le_of_not_lt hc⟩

/-- Helper: the short update always leaves a stored value at most the
candidate. -/
theorem updatedTrailingShort_set (pos : Position) (tr : ℚ) :
    ∃ v, updatedTrailingShort pos tr = { pos with trailing_stop := some v } ∧ v ≤ tr := by
  cases h : pos.trailing_stop with
  | none =>
    simp only [updatedTrailingShort, h]
    exact ⟨tr, rfl, le_refl tr⟩
  | some t =>
    simp only [updatedTrailingShort, h]
    by_cases hc : tr < t
    · rw [if_pos hc]
      exact ⟨tr, rfl, le_refl tr⟩
    · rw [if_neg hc]
      exact ⟨t, (pos_trailing_self pos t h).symm, le_of_not_lt hc⟩

/-- Helper: a candidate not above the stored long level leaves the
position untouched. -/
theorem updatedTrailingLong_fix (pos : Position) (tr v : ℚ)
    (h : pos.trailing_stop = some v) (hle : tr ≤ v) :
    updatedTrailingLong pos tr = pos := by
  simp only [updatedTrailingLong, h]
  rw [if_neg (not_lt.mpr hle)]

/-- Helper: a candidate not below the stored short level leaves the
position untouched. -/
theorem updatedTrailingShort_fix (pos : Position) (tr v : ℚ)
    (h : pos.trailing_stop = some v) (hle : v ≤ tr) :
    updatedTrailingShort pos tr = pos := by
  simp only [updatedTrailingShort, h]
  rw [if_neg (not_lt.mpr hle)]

/-- Helper: counting nonpositive-P&L trades is the same as subtracting
the winner count from the total. -/
theorem length_filter_nonpos_eq (ts : List Trade) :
    (ts.filter fun t => decide (t.pnl ≤ 0)).length =
      ts.length - (ts.filter fun t => decide (0 < t.pnl)).length := by
  induction ts with
  | nil => simp
  | cons h t ih =>
    have hle := List.length_filter_le (fun t => decide (0 < t.pnl)) t
    by_cases hp : 0 < h.pnl
    · simp [List.filter_cons, hp, not_le.mpr hp, ih]
    · simp [List.filter_cons, hp, le_of_not_lt hp, ih]
      omega

/-- Claim C1 (code_bug evidence).  The daily counters are claimed to
reset only on a date transition and never mid-day, but open_position
stores the full timestamp in last_trade_date while check_signal
compares it against the bare date of the current row; a timestamp with
a nonzero time of day never equals a bare date, so the reset fires even
though the last trade and the current row are on the same day 0: after
one check_signal call on a same-day row the daily trade count 3 and
daily P&L -50 are both zeroed. -/
theorem daily_reset_fires_mid_day :
    c1Engine.last_trade_date = some { day := 0, tod := 1/2 } ∧
    (rowAt c1Df 6).day = 0 ∧
    c1Engine.daily_trade_count = 3 ∧
    c1Engine.daily_pnl = -50 ∧
    (check_signal c1Engine c1Df (some 6)).1.daily_trade_count = 0 ∧
    (check_signal c1Engine c1Df (some 6)).1.daily_pnl = 0 := by
  norm_num [check_signal, resetDaily, c1Engine, c1Row, c1Df, e0, initEngine, rowAt,
    signal_of_patterns, sliceCol, seriesMax, seriesMin, dRow]

/-- Claim C2 (counterexample).  Calling open_position while a position
is already open is not rejected: on a concrete engine holding c2Pos it
returns true, increments the daily trade count from 2 to 3, replaces
the stored position and changes the last-trade date. -/
theorem open_while_open_counterexample :
    c2Engine.position = some c2Pos ∧
    (open_position c2Engine c2Signal { day := 0, tod := 1 }).2 = true ∧
    (open_position c2Engine c2Signal { day := 0, tod := 1 }).1.daily_trade_count = 3 ∧
    (open_position c2Engine c2Signal { day := 0, tod := 1 }).1.position ≠ some c2Pos ∧
    (open_position c2Engine c2Signal { day := 0, tod := 1 }).1.last_trade_date ≠
      c2Engine.last_trade_date := by
  norm_num [open_position, openedPosition, calculate_stops, calculate_position_size,
    calculate_liquidation_price, c2Engine, c2Signal, c2Pos, e0, initEngine, min_def,
    Position.mk.injEq]
  exact fun h => Option.noConfusion h

/-- Claim C2 (amended).  close_position with no open position is a
no-op returning no record and leaving the whole engine unchanged;
open_position performs no open-position check: whether the slot holds a
position or not, it returns the same success flag, and on success it
produces the same resulting engine as it would from a flat slot
(overwriting the stored position and incrementing the daily count). -/
theorem close_noop_open_ignores_position :
    (∀ e : Engine, ∀ x : ℚ, ∀ ts : Timestamp, ∀ r : Reason,
        e.position = none → close_position e x ts r = (e, none)) ∧
    (∀ e : Engine, ∀ p : Position, ∀ s : Signal, ∀ ts : Timestamp,
        (open_position { e with position := some p } s ts).2 =
          (open_position { e with position := none } s ts).2 ∧
        ((open_position { e with position := some p } s ts).2 = true →
          (open_position { e with position := some p } s ts).1 =
            (open_position { e with position := none } s ts).1)) := by
  constructor
  · intro e x ts r h
    simp [close_position, h]
  · intro e p s ts
    by_cases hsz :
        calculate_position_size { e with position := some p } s.price
          (calculate_stops { e with position := some p } s.price s.type s.atr).1
          s.confidence ≤ 0
    · have hsz2 :
          calculate_position_size { e with position := none } s.price
            (calculate_stops { e with position := none } s.price s.type s.atr).1
            s.confidence ≤ 0 := hsz
      refine ⟨?_, ?_⟩
      · simp only [open_position, if_pos hsz, if_pos hsz2]
      · intro htrue
        exfalso
        simp only [open_position, if_pos hsz] at htrue
        exact Bool.noConfusion htrue
    · have hsz2 :
          ¬ calculate_position_size { e with position := none } s.price
            (calculate_stops { e with position := none } s.price s.type s.atr).1
            s.confidence ≤ 0 := hsz
      refine ⟨?_, fun _ => ?_⟩
      · simp only [open_position, if_neg hsz, if_neg hsz2]
      · simp only [open_position, if_neg hsz, if_neg hsz2]
        rfl

/-- Witness for the amended claim C2 at concrete inputs: a flat engine
close is the identity, and an open call on an engine holding c2Pos
yields the same resulting engine as from the flat slot. -/
theorem close_noop_open_ignores_position_witness :
    close_position e0 100 { day := 0, tod := 0 } .STOP_LOSS = (e0, none) ∧
    (open_position { e0 with position := some c2Pos } c2Signal { day := 0, tod := 1 }).1 =
      (open_position { e0 with position := none } c2Signal { day := 0, tod := 1 }).1 :=
  ⟨close_noop_open_ignores_position.1 e0 100 { day := 0, tod := 0 } .STOP_LOSS rfl,
   (close_noop_open_ignores_position.2 e0 c2Pos c2Signal { day := 0, tod := 1 }).2
     (by norm_num [open_position, calculate_stops, calculate_position_size,
       c2Signal, c2Pos, e0, initEngine, min_def])⟩

/-- Claim C3.  check_signal called without an explicit index defaults
the index to -1, which fails the lookback guard, so the call returns no
signal and leaves the engine untouched, for every engine and every
indicator-augmented dataframe. -/
theorem check_signal_no_index_is_none (e : Engine) (df : List Row) :
    check_signal e df none = (e, none) := by
  simp [check_signal]

/-- Claim C4.  Closing an open position with reason LIQUIDATION records
a P&L of exactly minus 0.9 times the capital recorded at entry,
whatever the exit price, and adds that amount to capital. -/
theorem liquidation_close_pnl (e : Engine) (p : Position) (x : ℚ)
    (ts : Timestamp) (h : e.position = some p) :
    ∃ tr : Trade, (close_position e x ts .LIQUIDATION).2 = some tr ∧
      tr.pnl = -(0.9 * p.entry_capital) ∧
      (close_position e x ts .LIQUIDATION).1.capital =
        e.capital + -(0.9 * p.entry_capital) := by
  simp only [close_position, h]
  refine ⟨_, rfl, ?_, ?_⟩ <;> simp <;> ring

/-- Witness for claim C4: liquidating the fixture position at exit
price 81 books a P&L of minus 9000 regardless of the price. -/
theorem liquidation_close_pnl_witness :
    ∃ tr : Trade, (close_position wEngine 81 { day := 0, tod := 1 } .LIQUIDATION).2 = some tr ∧
      tr.pnl = -(0.9 * wPos.entry_capital) ∧
      (close_position wEngine 81 { day := 0, tod := 1 } .LIQUIDATION).1.capital =
        wEngine.capital + -(0.9 * wPos.entry_capital) :=
  liquidation_close_pnl wEngine wPos 81 { day := 0, tod := 1 } rfl

/-- Claim C5.  Closing an open position for any reason returns a trade
record and leaves capital increased by exactly the recorded P&L, the
position slot empty, the record appended at the end of the trade log,
and the daily P&L increased by the same amount. -/
theorem close_accounting (e : Engine) (p : Position) (x : ℚ) (ts : Timestamp)
    (r : Reason) (h : e.position = some p) :
    ∃ tr : Trade, (close_position e x ts r).2 = some tr ∧
      (close_position e x ts r).1.capital = e.capital + tr.pnl ∧
      (close_position e x ts r).1.position = none ∧
      (close_position e x ts r).1.trades = e.trades ++ [tr] ∧
      (close_position e x ts r).1.daily_pnl = e.daily_pnl + tr.pnl := by
  simp only [close_position, h]
  refine ⟨_, rfl, ?_, ?_, ?_, ?_⟩ <;> simp

/-- Witness for claim C5 at a concrete take-profit close of the fixture
position. -/
theorem close_accounting_witness :
    ∃ tr : Trade, (close_position wEngine 107 { day := 0, tod := 1 } .TAKE_PROFIT).2 = some tr ∧
      (close_position wEngine 107 { day := 0, tod := 1 } .TAKE_PROFIT).1.capital =
        wEngine.capital + tr.pnl ∧
      (close_position wEngine 107 { day := 0, tod := 1 } .TAKE_PROFIT).1.position = none ∧
      (close_position wEngine 107 { day := 0, tod := 1 } .TAKE_PROFIT).1.trades =
        wEngine.trades ++ [tr] ∧
      (close_position wEngine 107 { day := 0, tod := 1 } .TAKE_PROFIT).1.daily_pnl =
        wEngine.daily_pnl + tr.pnl :=
  close_accounting wEngine wPos 107 { day := 0, tod := 1 } .TAKE_PROFIT rfl

/-- Claim C6.  Across a should_exit_position evaluation of an open
position whose trailing stop is armed at value t, the position remains
open with a stored trailing value, and that value never loosens: at
least t for a long position, at most t for a short one — so across any
sequence of evaluations the armed level is monotone in the favorable
direction and a loosening candidate is discarded. -/
theorem trailing_stop_never_loosens (e : Engine) (p : Position) (t : ℚ)
    (price : ℚ) (atr? : Option ℚ) (hp : e.position = some p)
    (ht : p.trailing_stop = some t) :
    ∃ p1 t1, (should_exit_position e price atr?).1.position = some p1 ∧
      p1.trailing_stop = some t1 ∧
      (p.type = .long → t ≤ t1) ∧ (p.type = .short → t1 ≤ t) := by
  by_cases hty : p.type = .long
  · cases atr? with
    | none =>
      simp [should_exit_position, hp, hty]
      split_ifs
      · exact ⟨p, hp, t, ht, le_refl t⟩
      · rw [regular_exits_engine]
        exact ⟨p, hp, t, ht, le_refl t⟩
    | some a =>
      obtain ⟨u, hu, htu⟩ :=
        updatedTrailingLong_mono p (price - a * e.stop_atr_multiplier * 0.75) t ht
      simp [should_exit_position, hp, hty]
      split_ifs
      · exact ⟨p, hp, t, ht, le_refl t⟩
      · exact ⟨_, rfl, u, hu, htu⟩
      · rw [regular_exits_engine]
        exact ⟨_, rfl, u, hu, htu⟩
      · rw [regular_exits_engine]
        exact ⟨p, hp, t, ht, le_refl t⟩
  · have hsh : p.type = .short := by
      cases hpt : p.type
      · exact absurd hpt hty
      · rfl
    cases atr? with
    | none =>
      simp [should_exit_position, hp, hsh]
      split_ifs
      · exact ⟨p, hp, t, ht, le_refl t⟩
      · rw [regular_exits_engine]
        exact ⟨p, hp, t, ht, le_refl t⟩
    | some a =>
      obtain ⟨u, hu, htu⟩ :=
        updatedTrailingShort_mono p (price + a * e.stop_atr_multiplier * 0.75) t ht
      simp [should_exit_position, hp, hsh]
      split_ifs
      · exact ⟨p, hp, t, ht, le_refl t⟩
      · exact ⟨_, rfl, u, hu, htu⟩
      · rw [regular_exits_engine]
        exact ⟨_, rfl, u, hu, htu⟩
      · rw [regular_exits_engine]
        exact ⟨p, hp, t, ht, le_refl t⟩

/-- Witness for claim C6: evaluating the armed fixture position at
price 105 with ATR 1 leaves a trailing value no lower than the armed
101. -/
theorem trailing_stop_never_loosens_witness :
    ∃ p1 t1, (should_exit_position c6Engine 105 (some 1)).1.position = some p1 ∧
      p1.trailing_stop = some t1 ∧
      (c6Pos.type = .long → 101 ≤ t1) ∧ (c6Pos.type = .short → t1 ≤ 101) :=
  trailing_stop_never_loosens c6Engine c6Pos 101 105 (some 1) rfl rfl

/-- Claim C7.  should_exit_position is idempotent: re-evaluating with
the same price and the same ATR from the state left by a first
evaluation returns the identical engine state and the identical
(exit, reason) result — in particular it never changes the position a
second time.  Stated for every engine, so it covers the open-position
case of the claim and the flat case trivially. -/
theorem should_exit_idempotent (e : Engine) (price : ℚ) (atr? : Option ℚ) :
    should_exit_position (should_exit_position e price atr?).1 price atr? =
      should_exit_position e price atr? := by
  cases hpos : e.position with
  | none =>
    have h1 : should_exit_position e price atr? = (e, false, none) := by
      simp [should_exit_position, hpos]
    rw [h1]
    exact h1
  | some p =>
    by_cases hty : p.type = .long
    · by_cases hliq : price ≤ p.liquidation_price
      · have h1 : should_exit_position e price atr? = (e, true, some .LIQUIDATION) := by
          simp [should_exit_position, hpos, hty, hliq]
        rw [h1]
        exact h1
      · cases atr? with
        | none =>
          obtain ⟨b, r, hbr⟩ := regular_exits_shape e p price
          have h1 : should_exit_position e price none = (e, b, r) := by
            simp [should_exit_position, hpos, hty, hliq]
            exact hbr
          rw [h1]
          exact h1
        | some a =>
          by_cases hcond : a ≠ 0 ∧
              (price - p.entry_price) / p.entry_price * 100 > e.trailing_activation
          · obtain ⟨v, hv, htrv⟩ :=
              updatedTrailingLong_set p (price - a * e.stop_atr_multiplier * 0.75)
            by_cases hex : price ≤
                ((updatedTrailingLong p (price - a * e.stop_atr_multiplier * 0.75)).trailing_stop.getD 0)
            · have h1 : should_exit_position e price (some a) = ({ e with position := some (updatedTrailingLong p (price - a * e.stop_atr_multiplier * 0.75)) }, true, some .TRAILING_STOP) := by
                simp [should_exit_position, hpos, hty, hliq, hcond.1, hcond.2, hex]
              rw [h1]
              rw [hv] at hex ⊢
              have hfix := updatedTrailingLong_fix ({ p with trailing_stop := some v }) (price - a * e.stop_atr_multiplier * 0.75) v rfl htrv
              simp only [Option.getD_some] at hex
              rw [hty] at hfix
              simp [should_exit_position, hty, hliq, hcond.1, hcond.2, hfix, hex]
            · obtain ⟨b, r, hbr⟩ := regular_exits_shape ({ e with position := some (updatedTrailingLong p (price - a * e.stop_atr_multiplier * 0.75)) }) (updatedTrailingLong p (price - a * e.stop_atr_multiplier * 0.75)) price
              have h1 : should_exit_position e price (some a) = ({ e with position := some (updatedTrailingLong p (price - a * e.stop_atr_multiplier * 0.75)) }, b, r) := by
                simp [should_exit_position, hpos, hty, hliq, hcond.1, hcond.2, hex]
                exact hbr
              rw [h1]
              rw [hv] at hex hbr ⊢
              have hfix := updatedTrailingLong_fix ({ p with trailing_stop := some v }) (price - a * e.stop_atr_multiplier * 0.75) v rfl htrv
              simp only [Option.getD_some] at hex
              rw [hty] at hfix hbr
              simp [should_exit_position, hty, hliq, hcond.1, hcond.2, hfix, hex]
              exact hbr
          · obtain ⟨b, r, hbr⟩ := regular_exits_shape e p price
            have h1 : should_exit_position e price (some a) = (e, b, r) := by
              simp [should_exit_position, hpos, hty, hliq, hcond]
              exact hbr
            rw [h1]
            exact h1
    · have hsh : p.type = .short := by
        cases hpt : p.type
        · exact absurd hpt hty
        · rfl
      by_cases hliq : price ≥ p.liquidation_price
      · have h1 : should_exit_position e price atr? = (e, true, some .LIQUIDATION) := by
          simp [should_exit_position, hpos, hsh, hliq]
        rw [h1]
        exact h1
      · cases atr? with
        | none =>
          obtain ⟨b, r, hbr⟩ := regular_exits_shape e p price
          have h1 : should_exit_position e price none = (e, b, r) := by
            simp [should_exit_position, hpos, hsh, hliq]
            exact hbr
          rw [h1]
          exact h1
        | some a =>
          by_cases hcond : a ≠ 0 ∧
              (p.entry_price - price) / p.entry_price * 100 > e.trailing_activation
          · obtain ⟨v, hv, htrv⟩ :=
              updatedTrailingShort_set p (price + a * e.stop_atr_multiplier * 0.75)
            by_cases hex : price ≥
                ((updatedTrailingShort p (price + a * e.stop_atr_multiplier * 0.75)).trailing_stop.getD 0)
            · have h1 : should_exit_position e price (some a) = ({ e with position := some (updatedTrailingShort p (price + a * e.stop_atr_multiplier * 0.75)) }, true, some .TRAILING_STOP) := by
                simp [should_exit_position, hpos, hsh, hliq, hcond.1, hcond.2, hex]
              rw [h1]
              rw [hv] at hex ⊢
              have hfix := updatedTrailingShort_fix ({ p with trailing_stop := some v }) (price + a * e.stop_atr_multiplier * 0.75) v rfl htrv
              simp only [Option.getD_some] at hex
              rw [hsh] at hfix
              simp [should_exit_position, hsh, hliq, hcond.1, hcond.2, hfix, hex]
            · obtain ⟨b, r, hbr⟩ := regular_exits_shape ({ e with position := some (updatedTrailingShort p (price + a * e.stop_atr_multiplier * 0.75)) }) (updatedTrailingShort p (price + a * e.stop_atr_multiplier * 0.75)) price
              have h1 : should_exit_position e price (some a) = ({ e with position := some (updatedTrailingShort p (price + a * e.stop_atr_multiplier * 0.75)) }, b, r) := by
                simp [should_exit_position, hpos, hsh, hliq, hcond.1, hcond.2, hex]
                exact hbr
              rw [h1]
              rw [hv] at hex hbr ⊢
              have hfix := updatedTrailingShort_fix ({ p with trailing_stop := some v }) (price + a * e.stop_atr_multiplier * 0.75) v rfl htrv
              simp only [Option.getD_some] at hex
              rw [hsh] at hfix hbr
              simp [should_exit_position, hsh, hliq, hcond.1, hcond.2, hfix, hex]
              exact hbr
          · obtain ⟨b, r, hbr⟩ := regular_exits_shape e p price
            have h1 : should_exit_position e price (some a) = (e, b, r) := by
              simp [should_exit_position, hpos, hsh, hliq, hcond]
              exact hbr
            rw [h1]
            exact h1

/-- Claim C8.  calculate_position_size returns 0 whenever the entry
equals the stop (the division-by-zero guard); with distinct prices it
returns the risk-based size capped at half of capital times leverage;
on the scenario configuration (capital 10000, leverage 3, risk 0.02,
confidence 1, entry 100, stop 96) it returns 150; and open_position on
a signal whose computed stop-loss equals its price fails, returning the
engine unchanged with false, so no position is created and no daily
counter moves. -/
theorem size_guard_and_formula :
    (∀ e : Engine, ∀ entry conf : ℚ, calculate_position_size e entry entry conf = 0) ∧
    (∀ e : Engine, ∀ entry stop conf : ℚ, entry ≠ stop →
        calculate_position_size e entry stop conf =
          min (e.capital * e.risk_per_trade * conf / |entry - stop| * e.leverage)
              (0.5 * (e.capital * e.leverage))) ∧
    calculate_position_size e0 100 96 1 = 150 ∧
    (∀ e : Engine, ∀ s : Signal, ∀ ts : Timestamp,
        (calculate_stops e s.price s.type s.atr).1 = s.price →
        open_position e s ts = (e, false)) := by
  refine ⟨?_, ?_, ?_, ?_⟩
  · intro e entry conf
    simp [calculate_position_size]
  · intro e entry stop conf hne
    have habs : ¬ (|entry - stop| = 0) := by
      simp [abs_eq_zero, sub_eq_zero, hne]
    rw [calculate_position_size, if_neg habs]
    rw [show e.capital * e.leverage * 0.5 = 0.5 * (e.capital * e.leverage) by ring]
  · norm_num [calculate_position_size, e0, initEngine, min_def]
  · intro e s ts h
    rw [open_position]
    simp only [h]
    rw [show calculate_position_size e s.price s.price s.confidence = 0 by
      simp [calculate_position_size]]
    simp

/-- Witness for claim C8: the zero-distance guard at entry 5, the
capped formula at the scenario inputs, and the failed open on the
zero-ATR signal. -/
theorem size_guard_and_formula_witness :
    calculate_position_size e0 5 5 1 = 0 ∧
    calculate_position_size e0 100 96 1 =
      min (e0.capital * e0.risk_per_trade * 1 / |(100 : ℚ) - 96| * e0.leverage)
          (0.5 * (e0.capital * e0.leverage)) ∧
    open_position e0 sigZ { day := 0, tod := 0 } = (e0, false) :=
  ⟨size_guard_and_formula.1 e0 5 1,
   size_guard_and_formula.2.1 e0 100 96 1 (by norm_num),
   size_guard_and_formula.2.2.2 e0 sigZ { day := 0, tod := 0 }
     (by norm_num [calculate_stops, sigZ, e0, initEngine])⟩

/-- Claim C9.  At an evaluation index i of at least 5 within bounds,
with the daily gates passing after the reset step and under the
hypothesis that neither trend-pullback side nor either mean-reversion
side matched, check_signal produces the long breakout signal of
confidence 0.8 exactly when the 5-row trailing high-low span (rows i-5
through i-1, current excluded) is below 3 times the current ATR, the
close exceeds the prior 4-row high (rows i-5 through i-2, the source
slice iloc i-5 to i-1), the volume ratio exceeds 1.5 and the MACD line
is above its signal line. -/
theorem breakout_long_signal_iff (e : Engine) (df : List Row) (i : ℕ)
    (h5 : 5 ≤ i) (hlen : i < df.length)
    (hcount : (resetDaily e (rowAt df i)).daily_trade_count <
      (resetDaily e (rowAt df i)).max_trades_per_day)
    (hpnl : ¬ ((resetDaily e (rowAt df i)).daily_pnl <
      -(resetDaily e (rowAt df i)).daily_loss_limit * (resetDaily e (rowAt df i)).capital))
    (hp1l : ¬ p1_long (rowAt df i) (rowAt df (i - 1)) (rowAt df (i - 2)))
    (hp1s : ¬ p1_short (rowAt df i) (rowAt df (i - 1)) (rowAt df (i - 2)))
    (hp2l : ¬ p2_long (rowAt df i))
    (hp2s : ¬ p2_short (rowAt df i)) :
    (check_signal e df (some (i : ℤ))).2 =
        some { type := .long, price := (rowAt df i).close, atr := (rowAt df i).atr,
               pattern := .breakout, confidence := 0.8 } ↔
      p3_long df i (rowAt df i) := by
  have hi : ¬ ((i : ℤ) < 5) := by
    rw [not_lt]
    exact_mod_cast h5
  have hj : ((i : ℤ)).toNat = i := Int.toNat_natCast i
  simp only [check_signal, Option.getD_some]
  rw [if_neg hi, hj]
  rw [if_neg (not_le.mpr hcount)]
  rw [if_neg hpnl]
  simp only [signal_of_patterns]
  rw [if_neg hp1l, if_neg hp1s, if_neg hp2l, if_neg hp2s]
  by_cases h3 : p3_long df i (rowAt df i)
  · rw [if_pos h3]
    exact ⟨fun _ => h3, fun _ => rfl⟩
  · rw [if_neg h3]
    constructor
    · intro hcontra
      exfalso
      split_ifs at hcontra <;> simp_all [Signal.mk.injEq]
    · intro hc
      exact absurd hc h3

/-- Witness for claim C9: on the six-row breakout dataframe df9 with a
fresh engine, index 5 produces exactly the long breakout signal. -/
theorem breakout_long_signal_iff_witness :
    (check_signal e0 df9 (some ((5 : ℕ) : ℤ))).2 =
      some { type := .long, price := (rowAt df9 5).close, atr := (rowAt df9 5).atr,
             pattern := .breakout, confidence := 0.8 } :=
  (breakout_long_signal_iff e0 df9 5 (by norm_num) (by norm_num [df9])
    (by norm_num [resetDaily, e0, initEngine])
    (by norm_num [resetDaily, e0, initEngine])
    (by norm_num [p1_long, rowAt, df9, bRow, bCur, dRow])
    (by norm_num [p1_short, rowAt, df9, bRow, bCur, dRow])
    (by norm_num [p2_long, rowAt, df9, bRow, bCur, dRow])
    (by norm_num [p2_short, rowAt, df9, bRow, bCur, dRow])).mpr
    (by norm_num [p3_long, consolidating, breaking_higher, seriesMax, seriesMin,
      sliceCol, rowAt, df9, bRow, bCur, dRow, max_def, min_def])

/-- Claim C10.  analyze_performance returns none exactly on an empty
trade log; on a nonempty log the losing count equals the number of
trades with nonpositive P&L (zero counted as a loss), the profit factor
is gross profit over gross loss when the gross loss is positive and the
infinity marker (none) when it is zero; and on the log of one winning
and one losing trade of magnitude 100 the win rate is 50 and the profit
factor is 100 over 100. -/
theorem analyze_performance_empty_and_ratios :
    (∀ e : Engine, e.trades = [] → analyze_performance e = none) ∧
    (∀ e : Engine, e.trades ≠ [] →
        ∃ perf : Perf, analyze_performance e = some perf ∧
          perf.losing_trades = (e.trades.filter fun t => decide (t.pnl ≤ 0)).length ∧
          (0 < total_loss e.trades →
            perf.profit_factor = some (total_profit e.trades / total_loss e.trades)) ∧
          (total_loss e.trades = 0 → perf.profit_factor = none)) ∧
    (∃ perf : Perf, analyze_performance c10Engine = some perf ∧
        perf.win_rate = 50 ∧ perf.profit_factor = some (100 / 100)) := by
  refine ⟨?_, ?_, ?_⟩
  · intro e h
    simp [analyze_performance, h]
  · intro e h
    rw [analyze_performance, if_neg h]
    refine ⟨_, rfl, ?_, ?_, ?_⟩
    · simp only [perfOf]
      exact (length_filter_nonpos_eq e.trades).symm
    · intro hl
      simp only [perfOf]
      rw [if_pos hl]
    · intro hl
      simp only [perfOf]
      rw [if_neg (by rw [hl]; exact lt_irrefl 0)]
  · refine ⟨_, rfl, ?_, ?_⟩
    · norm_num [perfOf, c10Engine, e0, initEngine, tWin, tLoss, total_profit, total_loss]
    · norm_num [perfOf, c10Engine, e0, initEngine, tWin, tLoss, total_profit, total_loss]

/-- Witness for claim C10: the empty-log engine yields none, and the
two-trade engine yields the stated loss count and profit factor. -/
theorem analyze_performance_empty_and_ratios_witness :
    analyze_performance e0 = none ∧
    (∃ perf : Perf, analyze_performance c10Engine = some perf ∧
        perf.losing_trades = (c10Engine.trades.filter fun t => decide (t.pnl ≤ 0)).length ∧
        (0 < total_loss c10Engine.trades →
          perf.profit_factor =
            some (total_profit c10Engine.trades / total_loss c10Engine.trades)) ∧
        (total_loss c10Engine.trades = 0 → perf.profit_factor = none)) :=
  ⟨analyze_performance_empty_and_ratios.1 e0 rfl,
   analyze_performance_empty_and_ratios.2.1 c10Engine (fun h => List.noConfusion h)⟩
